import Mathlib

/-!
Shallow embedding of the Thing model (`src/src/models/thing.js`) of the
gateway repository, together with theorems checking the natural-language
specification against it.

Conventions of the embedding:
* JS objects used as string-keyed maps become association lists
  `List (String × _)` in insertion order.
* JS `undefined`/optional fields become `Option _`; the JS truthiness test
  `x || dflt` on strings is `jsOrStr` (both `undefined` and `""` are falsy).
* The filesystem is an explicit set of existing paths (`FS`), threaded
  through the operations that touch it (`setIcon`, `remove`).  Fallible
  filesystem calls (`unlinkSync`, `tmp.fileSync`/`writeFileSync`) are
  resolved by an explicit outcome oracle (`IconFsOracle`) so that every
  failure path of the source is a reachable branch of the definition.
* The Node `EventEmitter` held in `this.emitter` is modelled by its
  documented semantics: a list of registered listener callbacks (here:
  listener ids) for the single `Constants.EVENT` channel; `emit` invokes
  each currently-registered listener once, in registration order, which the
  embedding records as an explicit delivery list.
* `Database.updateThing` is an external collaborator; setters that persist
  return the description value they hand to it.
-/

/-- Mime types accepted by `setIcon` (`thing.js` line 148). -/
def allowedIconMimes : List String := ["image/jpeg", "image/png", "image/svg+xml"]

/-- Modelled from the spec: `Constants.THINGS_PATH` (src/constants.js is not
part of the provided sources).  Spec section 3 gives `href` =
`<things-root>/<id>` and section 8 shows the concrete root `/things`
(`wss://example.org/things/<id>`). -/
def THINGS_PATH : String := "/things"

/-- Modelled from the spec: `Constants.PROPERTIES_PATH` (src/constants.js is
not part of the provided sources).  Spec section 4.4: per-property hrefs are
`<thing href>/<collection>/<name>` with collection name `properties`. -/
def PROPERTIES_PATH : String := "/properties"

/-- Modelled from the spec: `UserProfile.baseDir` (src/user-profile.js is not
part of the provided sources); the spec only requires a profile directory
against which icon refs are resolved.  The concrete value is irrelevant to
every theorem below. -/
def baseDir : String := "/profile"

/-- Modelled from the spec: `UserProfile.uploadsDir`, the writable directory
for uploaded assets inside the profile directory (spec section 1/4.3:
"a writable directory for uploaded assets"); icon refs are stored as
`/uploads/<basename>` and resolved against `baseDir`, so the uploads
directory is the `uploads` subdirectory of the profile directory. -/
def uploadsDir : String := baseDir ++ "/uploads"

/-- JS string truthiness for `x || dflt`: `undefined` and `""` are falsy. -/
def jsOrStr (o : Option String) (dflt : String) : String :=
  match o with
  | none => dflt
  | some "" => dflt
  | some s => s

/-- JS truthiness test `!x` for an optional string (`undefined` and `""`). -/
def jsFalsyStr (o : Option String) : Bool :=
  match o with
  | none => true
  | some "" => true
  | some _ => false

/-- A property/action/event descriptor: a caller-supplied opaque payload,
augmented by the Thing with a computed `href`. -/
structure Descriptor where
  href : Option String
  payload : String
deriving DecidableEq, Repr

/-- A hyperlink entry of `this.links` / a description's `links` array.
`mediaType := none` models a link object without a `mediaType` field. -/
structure Link where
  rel : String
  mediaType : Option String
  href : String
deriving DecidableEq, Repr

/-- An event record; `thingId := none` models an event without a `thingId`
field (`dispatchEvent` stamps it). -/
structure EventRecord where
  name : String
  data : String
  thingId : Option String
  timestamp : Nat
deriving DecidableEq, Repr

/-- The `iconData` argument of `setIcon`: base64 payload and mime type;
`data := none` models a missing `data` field. -/
structure IconData where
  data : Option String
  mime : String
deriving DecidableEq, Repr

/-- WebSocket readyState constants of the `ws` module. -/
inductive WsState where
  | CONNECTING
  | OPEN
  | CLOSING
  | CLOSED
deriving DecidableEq, Repr

/-- A registered websocket session: an identifier and its transport state.
`close()` on a session moves an `OPEN`/`CONNECTING` session to `CLOSING`. -/
structure WsConn where
  id : Nat
  readyState : WsState
deriving DecidableEq, Repr

/-- Identifier standing for a listener callback registered on the emitter. -/
abbrev ListenerId := Nat

/-- The input Thing description (`description` argument of the constructor).
`@context` and `@type` are spelt `atContext`/`atType`. -/
structure ThingDescription where
  name : Option String
  type : Option String
  atContext : Option String
  atType : Option (List String)
  description : Option String
  properties : Option (List (String × Descriptor))
  actions : Option (List (String × Descriptor))
  events : Option (List (String × Descriptor))
  floorplanX : Option Int
  floorplanY : Option Int
  selectedCapability : Option String
  uiHref : Option String
  links : Option (List Link)
  iconHref : Option String
  iconData : Option IconData
deriving DecidableEq, Repr

/-- The in-memory Thing.  `listeners` is the registry of the internal
`EventEmitter` for the single `Constants.EVENT` channel. -/
structure Thing where
  id : String
  name : String
  type : String
  atContext : String
  atType : List String
  description : String
  href : String
  properties : List (String × Descriptor)
  actions : List (String × Descriptor)
  events : List (String × Descriptor)
  eventsDispatched : List EventRecord
  floorplanX : Option Int
  floorplanY : Option Int
  selectedCapability : Option String
  websockets : List WsConn
  links : List Link
  iconHref : Option String
  listeners : List ListenerId
deriving DecidableEq, Repr

/-- The filesystem, abstracted to the set of paths that currently exist. -/
structure FS where
  files : List String
deriving DecidableEq, Repr

/-- `fs.unlinkSync` on a path that exists. -/
def FS.remove (fs : FS) (p : String) : FS :=
  ⟨fs.files.filter (fun q => q ≠ p)⟩

/-- Creation of a new file at a path. -/
def FS.insert (fs : FS) (p : String) : FS :=
  ⟨p :: fs.files⟩

/-- `path.join(UserProfile.baseDir, ref)` for the absolute (`/uploads/...`)
icon refs this module stores: Node's join collapses the duplicate
separator, which for an absolute second segment is plain concatenation. -/
def resolveIconRef (r : String) : String := baseDir ++ r

/-- Outcome oracle for the fallible filesystem calls inside one `setIcon`
(or `remove`) call: whether `unlinkSync` of the old asset succeeds, whether
`tmp.fileSync` allocates the temp file, whether `writeFileSync` then
succeeds, and the random stem `tmp` chose for the `XXXXXX` template. -/
structure IconFsOracle where
  unlinkOldOk : Bool
  allocOk : Bool
  writeOk : Bool
  stem : String
deriving DecidableEq, Repr

/-- Errors reported (via `console.error`) by `setIcon`. -/
inductive IconError where
  | invalidData
  | writeFailed
deriving DecidableEq, Repr

/-- Extension chosen by the `switch` on the mime type (`thing.js`
lines 164-175).  The default is unreachable after validation. -/
def extForMime : String → String
  | "image/jpeg" => ".jpg"
  | "image/png" => ".png"
  | "image/svg+xml" => ".svg"
  | _ => ""

/-- `Thing.prototype.setIcon` (`thing.js` lines 146-206).
Returns the updated Thing, the updated filesystem, and the reported error
(if any).  Branches, in source order:
1. reject when `data` is falsy or the mime is not allowed, touching nothing;
2. when an old icon is set, try to unlink it (failure is logged and
   ignored) and clear `iconHref` regardless;
3. allocate a uniquely-named kept file in the uploads directory and write
   the payload; on failure the cleanup passes `tempfile.fd` (a number)
   where `unlinkSync` expects a path, so the inner unlink throws, is
   swallowed, and an allocated file survives; `iconHref` stays unset;
4. on success point `iconHref` at `/uploads/<basename>`.
The `updateDatabase` flag only forwards to the external store. -/
def Thing.setIcon (t : Thing) (fs : FS) (d : IconData) (o : IconFsOracle)
    (updateDatabase : Bool) : Thing × FS × Option IconError :=
  if jsFalsyStr d.data || !(allowedIconMimes.contains d.mime) then
    (t, fs, some .invalidData)
  else
    let cleared : Thing × FS :=
      match t.iconHref with
      | some old =>
        ({ t with iconHref := none },
         if o.unlinkOldOk then fs.remove (resolveIconRef old) else fs)
      | none => (t, fs)
    let t1 := cleared.1
    let fs1 := cleared.2
    let fname := o.stem ++ extForMime d.mime
    let tempPath := uploadsDir ++ "/" ++ fname
    if o.allocOk then
      if o.writeOk then
        ({ t1 with iconHref := some ("/uploads/" ++ fname) },
         fs1.insert tempPath, none)
      else
        (t1, fs1.insert tempPath, some .writeFailed)
    else
      (t1, fs1, some .writeFailed)

/-- First `alternate` + `text/html` link of the input description whose href
starts with `http` (`thing.js` lines 85-93). -/
def firstHtmlLink : List Link → Option String
  | [] => none
  | l :: rest =>
    if l.rel = "alternate" ∧ l.mediaType = some "text/html" ∧
        l.href.startsWith "http" then
      some l.href
    else
      firstHtmlLink rest

/-- Href of the UI `alternate` link: an explicit truthy `uiHref` wins, else
the first qualifying link of the description (when a `links` field is
present), else the Thing's own href (`thing.js` lines 77-94). -/
def uiLinkHref (d : ThingDescription) (selfHref : String) : String :=
  match d.uiHref with
  | some s =>
    if s = "" then
      match d.links with
      | some ls => (firstHtmlLink ls).getD selfHref
      | none => selfHref
    else s
  | none =>
    match d.links with
    | some ls => (firstHtmlLink ls).getD selfHref
    | none => selfHref

/-- The non-icon part of the Thing constructor (`thing.js` lines 36-105):
parse the description, compute the per-collection hrefs and the link set. -/
def buildThing (id : String) (d : ThingDescription) : Thing :=
  let href := THINGS_PATH ++ "/" ++ id
  { id := id
    name := jsOrStr d.name ""
    type := jsOrStr d.type ""
    atContext := jsOrStr d.atContext "https://iot.mozilla.org/schemas"
    atType := d.atType.getD []
    description := jsOrStr d.description ""
    href := href
    properties := (d.properties.getD []).map (fun pr =>
      (pr.1, { pr.2 with
        href := some (THINGS_PATH ++ "/" ++ id ++ PROPERTIES_PATH ++ "/" ++ pr.1) }))
    actions := (d.actions.getD []).map (fun pr =>
      (pr.1, { pr.2 with href := some (href ++ "/actions/" ++ pr.1) }))
    events := (d.events.getD []).map (fun pr =>
      (pr.1, { pr.2 with href := some (href ++ "/events/" ++ pr.1) }))
    eventsDispatched := []
    floorplanX := d.floorplanX
    floorplanY := d.floorplanY
    selectedCapability := d.selectedCapability
    websockets := []
    links := [
      { rel := "properties", mediaType := none, href := href ++ "/properties" },
      { rel := "actions", mediaType := none, href := href ++ "/actions" },
      { rel := "events", mediaType := none, href := href ++ "/events" },
      { rel := "alternate", mediaType := some "text/html",
        href := uiLinkHref d href } ]
    iconHref := none
    listeners := [] }

/-- Creation failure kind (the constructor logs and bails out when `id` or
`description` is falsy). -/
inductive CreateError where
  | InvalidArgument
deriving DecidableEq, Repr

/-- The full Thing constructor (`thing.js` lines 30-113) as a fallible
creation: rejects a falsy `id` or an absent `description`; otherwise builds
the Thing and initializes the icon (`iconHref` from the description when
truthy, else `setIcon(description.iconData, false)` when icon data is
supplied). -/
def Thing.create (id : String) (d : Option ThingDescription) (fs : FS)
    (o : IconFsOracle) : Except CreateError (Thing × FS) :=
  match d with
  | none => .error .InvalidArgument
  | some desc =>
    if id = "" then .error .InvalidArgument
    else
      let t := buildThing id desc
      match desc.iconHref with
      | some h =>
        if h = "" then
          match desc.iconData with
          | some idata => .ok ((t.setIcon fs idata o false).1, (t.setIcon fs idata o false).2.1)
          | none => .ok (t, fs)
        else .ok ({ t with iconHref := some h }, fs)
      | none =>
        match desc.iconData with
        | some idata => .ok ((t.setIcon fs idata o false).1, (t.setIcon fs idata o false).2.1)
        | none => .ok (t, fs)

/-- The description object returned by `getDescription` (`thing.js`
lines 265-280). -/
structure DescriptionOut where
  name : String
  type : String
  atContext : String
  atType : List String
  description : String
  href : String
  properties : List (String × Descriptor)
  actions : List (String × Descriptor)
  events : List (String × Descriptor)
  links : List Link
  floorplanX : Option Int
  floorplanY : Option Int
  selectedCapability : Option String
  iconHref : Option String
deriving DecidableEq, Repr

/-- `Thing.prototype.getDescription` (`thing.js` lines 253-281).  `req` is
the optional `(reqHost, reqSecure)` pair (`req = none` models
`typeof reqHost === 'undefined'`; an undefined `reqSecure` is the falsy
`false`).  When a host is supplied, one websocket `alternate` link is pushed
onto the (deep-copied) link list. -/
def Thing.getDescription (t : Thing) (req : Option (String × Bool)) :
    DescriptionOut :=
  let links :=
    match req with
    | none => t.links
    | some (host, secure) =>
      t.links ++ [{ rel := "alternate", mediaType := none,
                    href := (if secure then "wss" else "ws") ++ "://" ++ host ++ t.href }]
  { name := t.name
    type := t.type
    atContext := t.atContext
    atType := t.atType
    description := t.description
    href := t.href
    properties := t.properties
    actions := t.actions
    events := t.events
    links := links
    floorplanX := t.floorplanX
    floorplanY := t.floorplanY
    selectedCapability := t.selectedCapability
    iconHref := t.iconHref }

/-- `Thing.prototype.setName` (`thing.js` lines 134-137): mutate the field
and hand the full current description to `Database.updateThing` (the second
component is the persisted payload). -/
def Thing.setName (t : Thing) (n : String) : Thing × DescriptionOut :=
  let t1 := { t with name := n }
  (t1, t1.getDescription none)

/-- `Thing.prototype.setCoordinates` (`thing.js` lines 122-126). -/
def Thing.setCoordinates (t : Thing) (x y : Option Int) : Thing × DescriptionOut :=
  let t1 := { t with floorplanX := x, floorplanY := y }
  (t1, t1.getDescription none)

/-- `Thing.prototype.setSelectedCapability` (`thing.js` lines 214-217). -/
def Thing.setSelectedCapability (t : Thing) (c : Option String) :
    Thing × DescriptionOut :=
  let t1 := { t with selectedCapability := c }
  (t1, t1.getDescription none)

/-- `Thing.prototype.dispatchEvent` (`thing.js` lines 223-229): stamp
`thingId` when it is falsy, append the event to `eventsDispatched`, then
`emitter.emit` — which synchronously invokes every currently-registered
listener once, in registration order; the second component is that
delivery list. -/
def Thing.dispatchEvent (t : Thing) (e : EventRecord) :
    Thing × List (ListenerId × EventRecord) :=
  let e1 := if jsFalsyStr e.thingId then { e with thingId := some t.id } else e
  ({ t with eventsDispatched := t.eventsDispatched ++ [e1] },
   t.listeners.map (fun l => (l, e1)))

/-- `Thing.prototype.addEventSubscription` (`thing.js` lines 235-237):
`emitter.on` appends the listener to the registry. -/
def Thing.addEventSubscription (t : Thing) (l : ListenerId) : Thing :=
  { t with listeners := t.listeners ++ [l] }

/-- `emitter.removeListener` semantics: scan the registry from the end and
drop the most recently added matching entry (at most one); a no-op when the
listener is not registered. -/
def removeLastOcc (xs : List ListenerId) (l : ListenerId) : List ListenerId :=
  (xs.reverse.erase l).reverse

/-- `Thing.prototype.removeEventSubscription` (`thing.js` lines 243-245). -/
def Thing.removeEventSubscription (t : Thing) (l : ListenerId) : Thing :=
  { t with listeners := removeLastOcc t.listeners l }

/-- `Thing.prototype.registerWebsocket` (`thing.js` lines 283-285). -/
def Thing.registerWebsocket (t : Thing) (w : WsConn) : Thing :=
  { t with websockets := t.websockets ++ [w] }

/-- The argument shape of `addAction`/`removeAction`: only `action.name` is
inspected. -/
structure ActionArg where
  name : String
deriving DecidableEq, Repr

/-- `Thing.prototype.addAction` (`thing.js` lines 315-317):
`this.actions.hasOwnProperty(action.name)`; the Thing is returned unchanged
to make the absence of mutation a statement of the model. -/
def Thing.addAction (t : Thing) (a : ActionArg) : Bool × Thing :=
  (t.actions.any (fun pr => pr.1 == a.name), t)

/-- `Thing.prototype.removeAction` (`thing.js` lines 324-326): the same
membership test. -/
def Thing.removeAction (t : Thing) (a : ActionArg) : Bool × Thing :=
  (t.actions.any (fun pr => pr.1 == a.name), t)

/-- Whether `remove()` asks this session to close (`thing.js`
lines 303-304). -/
def wsShouldClose (w : WsConn) : Bool :=
  w.readyState == .OPEN || w.readyState == .CONNECTING

/-- Result of `Thing.prototype.remove`: the Thing (icon cleared, closing
sessions transitioned), the filesystem, and the ids of the sessions that
received a `close()` request. -/
structure RemoveResult where
  thing : Thing
  fs : FS
  closeRequests : List Nat
deriving DecidableEq, Repr

/-- `Thing.prototype.remove` (`thing.js` lines 290-308): best-effort unlink
of the icon asset when one is set (failure logged and ignored), `iconHref`
cleared regardless, then `close()` on every registered websocket whose
readyState is `OPEN` or `CONNECTING`; sessions in other states are left
untouched. -/
def Thing.remove (t : Thing) (fs : FS) (unlinkOk : Bool) : RemoveResult :=
  let cleared : Thing × FS :=
    match t.iconHref with
    | some old =>
      ({ t with iconHref := none },
       if unlinkOk then fs.remove (resolveIconRef old) else fs)
    | none => (t, fs)
  let t1 := cleared.1
  { thing := { t1 with websockets := t1.websockets.map (fun w =>
      if wsShouldClose w then { w with readyState := .CLOSING } else w) }
    fs := cleared.2
    closeRequests := (t1.websockets.filter wsShouldClose).map (fun w => w.id) }

/-- One call of the Thing's mutating public surface, with the outcomes of
its fallible filesystem steps baked into the operation. -/
inductive ThingOp where
  | setName (n : String)
  | setCoordinates (x y : Option Int)
  | setSelectedCapability (c : Option String)
  | setIcon (d : IconData) (o : IconFsOracle) (updateDatabase : Bool)
  | dispatchEvent (e : EventRecord)
  | addEventSubscription (l : ListenerId)
  | removeEventSubscription (l : ListenerId)
  | registerWebsocket (w : WsConn)
  | remove (unlinkOk : Bool)
  | addAction (a : ActionArg)
  | removeAction (a : ActionArg)
deriving DecidableEq, Repr

/-- Apply one operation: updated Thing, updated filesystem, and the list of
listener invocations it caused. -/
def applyOp (t : Thing) (fs : FS) : ThingOp → Thing × FS × List (ListenerId × EventRecord)
  | .setName n => ((t.setName n).1, fs, [])
  | .setCoordinates x y => ((t.setCoordinates x y).1, fs, [])
  | .setSelectedCapability c => ((t.setSelectedCapability c).1, fs, [])
  | .setIcon d o upd =>
    let r := t.setIcon fs d o upd
    (r.1, r.2.1, [])
  | .dispatchEvent e =>
    let r := t.dispatchEvent e
    (r.1, fs, r.2)
  | .addEventSubscription l => (t.addEventSubscription l, fs, [])
  | .removeEventSubscription l => (t.removeEventSubscription l, fs, [])
  | .registerWebsocket w => (t.registerWebsocket w, fs, [])
  | .remove unlinkOk =>
    let r := t.remove fs unlinkOk
    (r.thing, r.fs, [])
  | .addAction a => ((t.addAction a).2, fs, [])
  | .removeAction a => ((t.removeAction a).2, fs, [])

/-- Run a sequence of operations, concatenating the delivery lists in call
order. -/
def runOps (t : Thing) (fs : FS) : List ThingOp → Thing × FS × List (ListenerId × EventRecord)
  | [] => (t, fs, [])
  | op :: ops =>
    let r := applyOp t fs op
    let rest := runOps r.1 r.2.1 ops
    (rest.1, rest.2.1, r.2.2 ++ rest.2.2)

/-- The events a given listener was invoked with during a run, in call
order. -/
def deliveredTo (l : ListenerId) (ds : List (ListenerId × EventRecord)) :
    List EventRecord :=
  (ds.filter (fun p => p.1 == l)).map (fun p => p.2)

/-- The stamping `dispatchEvent` applies to an event before logging and
fan-out. -/
def stampEvent (id : String) (e : EventRecord) : EventRecord :=
  if jsFalsyStr e.thingId then { e with thingId := some id } else e

/-- The stamped events of the `dispatchEvent` operations of a run, in
order. -/
def stampedDispatches (id : String) (ops : List ThingOp) : List EventRecord :=
  ops.filterMap (fun op =>
    match op with
    | .dispatchEvent e => some (stampEvent id e)
    | _ => none)

/-- Icon-state consistency: the icon ref, when set, resolves to a file that
exists. -/
def iconConsistent (t : Thing) (fs : FS) : Prop :=
  ∀ r, t.iconHref = some r → resolveIconRef r ∈ fs.files

/-- A heap object, for the reference-level (aliasing) view of
`getDescription`: the string-keyed maps and the links array are objects on
a heap. -/
inductive HObj where
  | map (entries : List (String × Descriptor))
  | linkList (ls : List Link)
deriving DecidableEq, Repr

/-- A heap: an allocation counter and a store; writes shadow. -/
structure Heap where
  next : Nat
  store : List (Nat × HObj)
deriving DecidableEq, Repr

/-- Read the object at an address. -/
def Heap.read (h : Heap) (a : Nat) : Option HObj :=
  (h.store.find? (fun p => p.1 == a)).map (fun p => p.2)

/-- Overwrite the object at an address (in-place mutation of the object all
references to `a` see). -/
def Heap.write (h : Heap) (a : Nat) (v : HObj) : Heap :=
  ⟨h.next, (a, v) :: h.store⟩

/-- Allocate a fresh object. -/
def Heap.alloc (h : Heap) (v : HObj) : Nat × Heap :=
  (h.next, ⟨h.next + 1, (h.next, v) :: h.store⟩)

/-- The Thing's object references: where its `properties`, `actions`,
`events` maps and its `links` array live on the heap. -/
structure ThingRefs where
  propertiesA : Nat
  actionsA : Nat
  eventsA : Nat
  linksA : Nat
deriving DecidableEq, Repr

/-- The references held by the object `getDescription` returns. -/
structure DescRefs where
  propertiesA : Nat
  actionsA : Nat
  eventsA : Nat
  linksA : Nat
deriving DecidableEq, Repr

/-- Reference-level rendering of `Thing.prototype.getDescription`
(`thing.js` lines 253-281): `JSON.parse(JSON.stringify(this.links))`
allocates a fresh copy of the links array, while the returned object's
`properties`, `actions` and `events` fields are the very references the
Thing holds. -/
def getDescriptionRefs (t : ThingRefs) (h : Heap) : DescRefs × Heap :=
  let copied := (h.read t.linksA).getD (.linkList [])
  let alloced := h.alloc copied
  ({ propertiesA := t.propertiesA
     actionsA := t.actionsA
     eventsA := t.eventsA
     linksA := alloced.1 }, alloced.2)

/-- All addresses a Thing holds are allocated (below the heap counter). -/
def ThingRefs.wf (t : ThingRefs) (h : Heap) : Prop :=
  t.propertiesA < h.next ∧ t.actionsA < h.next ∧ t.eventsA < h.next ∧
    t.linksA < h.next

/-- A description with every optional field absent. -/
def emptyDesc : ThingDescription :=
  { name := none, type := none, atContext := none, atType := none
    description := none, properties := none, actions := none, events := none
    floorplanX := none, floorplanY := none, selectedCapability := none
    uiHref := none, links := none, iconHref := none, iconData := none }

/-- An empty filesystem. -/
def fs0 : FS := ⟨[]⟩

/-- An all-success filesystem oracle. -/
def oracle0 : IconFsOracle := ⟨true, true, true, "upload1"⟩

/-- A small concrete Thing used by witnesses and counterexamples. -/
def sampleThing : Thing := buildThing "t1" emptyDesc

/-- Concrete Thing for the `setIcon` failure-path counterexample: an icon is
currently set and its file exists. -/
def c1Thing : Thing := { sampleThing with iconHref := some "/uploads/old.png" }

/-- Concrete filesystem holding the icon file of `c1Thing`. -/
def c1Fs : FS := ⟨[resolveIconRef "/uploads/old.png"]⟩

/-- A description carrying one property, one action and one event. -/
def richDesc : ThingDescription :=
  { emptyDesc with
    properties := some [("temperature", ⟨none, "p"⟩)]
    actions := some [("reboot", ⟨none, "a"⟩)]
    events := some [("overheated", ⟨none, "e"⟩)] }

/-- A Thing with one registered listener (id 5). -/
def c2Thing : Thing := { sampleThing with listeners := [5] }

/-- A concrete event without a `thingId`. -/
def ev1 : EventRecord := ⟨"ev1", "d1", none, 1⟩

/-- A concrete event that already carries a non-empty `thingId`. -/
def ev2 : EventRecord := ⟨"ev2", "d2", some "other", 2⟩

/-- A concrete operation sequence: two dispatches with a listener
registration and an unrelated setter in between. -/
def c2Ops : List ThingOp :=
  [ThingOp.dispatchEvent ev1, ThingOp.addEventSubscription 3,
   ThingOp.dispatchEvent ev2, ThingOp.setName "renamed"]

/-- A Thing with one open and one already-closed session, and an icon set. -/
def c9Thing : Thing :=
  { sampleThing with
    websockets := [⟨1, WsState.OPEN⟩, ⟨2, WsState.CLOSED⟩]
    iconHref := some "/uploads/old.png" }

/-- Concrete filesystem holding the icon file of `c9Thing`. -/
def c9Fs : FS := ⟨[resolveIconRef "/uploads/old.png"]⟩

/-- Concrete heap references of a Thing for the aliasing theorem. -/
def c10Refs : ThingRefs := ⟨0, 1, 2, 3⟩

/-- Concrete heap on which the references of `c10Refs` are allocated. -/
def c10Heap : Heap :=
  ⟨4, [(0, .map []), (1, .map []), (2, .map []), (3, .linkList [])]⟩

/-! Helper lemmas shared by several claims. -/

/-- Whatever branch `setIcon` takes, the only Thing field it changes is
`iconHref`. -/
theorem setIcon_shape (t : Thing) (fs : FS) (d : IconData) (o : IconFsOracle) (u : Bool) :
    ∃ ih, (t.setIcon fs d o u).1 = { t with iconHref := ih } := by
  unfold Thing.setIcon
  split
  · exact ⟨t.iconHref, rfl⟩
  · cases ht : t.iconHref <;> simp only [ht] <;> split <;> (try split) <;>
      first
        | exact ⟨t.iconHref, rfl⟩
        | exact ⟨none, rfl⟩
        | exact ⟨some ("/uploads/" ++ (o.stem ++ extForMime d.mime)), rfl⟩

/-- Resolving a stored `/uploads/<basename>` ref against the profile
directory yields exactly the path of the file written in the uploads
directory. -/
theorem resolve_uploads (f : String) :
    resolveIconRef ("/uploads/" ++ f) = uploadsDir ++ "/" ++ f := by
  show baseDir ++ ("/uploads/" ++ f) = baseDir ++ "/uploads" ++ "/" ++ f
  rw [show ("/uploads/" : String) = "/uploads" ++ "/" from rfl]
  simp [String.append_assoc]

/-- With a non-empty id and a present description, creation always
succeeds. -/
theorem create_some_ok (id : String) (d : ThingDescription) (fs : FS) (o : IconFsOracle)
    (hid : id ≠ "") :
    ∃ t fs2, Thing.create id (some d) fs o = .ok (t, fs2) := by
  unfold Thing.create
  dsimp only
  rw [if_neg hid]
  cases hic : d.iconHref with
  | some s =>
    dsimp only
    by_cases hs : s = ""
    · rw [if_pos hs]
      cases hid2 : d.iconData <;> exact ⟨_, _, rfl⟩
    · rw [if_neg hs]
      exact ⟨_, _, rfl⟩
  | none => cases hid2 : d.iconData <;> exact ⟨_, _, rfl⟩

/-- A successfully created Thing is `buildThing` with, at most, a different
`iconHref` (the icon-initialization tail of the constructor touches nothing
else). -/
theorem create_ok_shape (id : String) (d : ThingDescription) (fs : FS) (o : IconFsOracle)
    (t : Thing) (fs2 : FS) (h : Thing.create id (some d) fs o = .ok (t, fs2)) :
    ∃ ih, t = { buildThing id d with iconHref := ih } := by
  unfold Thing.create at h
  dsimp only at h
  by_cases hid : id = ""
  · rw [if_pos hid] at h; exact Except.noConfusion h
  · rw [if_neg hid] at h
    cases hic : d.iconHref with
    | some s =>
      rw [hic] at h
      dsimp only at h
      by_cases hs : s = ""
      · rw [if_pos hs] at h
        cases hid2 : d.iconData with
        | some idata =>
          rw [hid2] at h
          obtain ⟨ih, hsh⟩ := setIcon_shape (buildThing id d) fs idata o false
          injection h with h1
          injection h1 with h1 h2
          exact ⟨ih, h1 ▸ hsh⟩
        | none =>
          rw [hid2] at h
          injection h with h1
          injection h1 with h1 h2
          exact ⟨none, by rw [← h1]; try rfl⟩
      · rw [if_neg hs] at h
        injection h with h1
        injection h1 with h1 h2
        exact ⟨some s, by rw [← h1]; try rfl⟩
    | none =>
      rw [hic] at h
      dsimp only at h
      cases hid2 : d.iconData with
      | some idata =>
        rw [hid2] at h
        obtain ⟨ih, hsh⟩ := setIcon_shape (buildThing id d) fs idata o false
        injection h with h1
        injection h1 with h1 h2
        exact ⟨ih, h1 ▸ hsh⟩
      | none =>
        rw [hid2] at h
        injection h with h1
        injection h1 with h1 h2
        exact ⟨none, by rw [← h1]; try rfl⟩

/-- Regrouping of the property-href concatenation of the constructor. -/
theorem props_href_eq (H n : String) :
    H ++ PROPERTIES_PATH ++ "/" ++ n = H ++ "/properties/" ++ n := by
  rw [String.append_assoc H PROPERTIES_PATH "/"]
  rfl

/-- `remove` issues close requests to exactly the filtered sessions,
whether or not an icon was set. -/
theorem remove_creq (t : Thing) (fs : FS) (u : Bool) :
    (t.remove fs u).closeRequests
      = (t.websockets.filter wsShouldClose).map (fun w => w.id) := by
  cases h : t.iconHref <;> simp [Thing.remove, h]

/-- Session states after `remove`: closing sessions transition, others are
untouched. -/
theorem remove_ws (t : Thing) (fs : FS) (u : Bool) :
    (t.remove fs u).thing.websockets
      = t.websockets.map (fun w =>
          if wsShouldClose w then { w with readyState := .CLOSING } else w) := by
  cases h : t.iconHref <;> simp [Thing.remove, h]

/-- `remove` always clears the icon ref. -/
theorem remove_icon (t : Thing) (fs : FS) (u : Bool) :
    (t.remove fs u).thing.iconHref = none := by
  cases h : t.iconHref <;> simp [Thing.remove, h]

/-- Filtering a delivery log distributes over concatenation. -/
theorem deliveredTo_append (l : ListenerId) (a b : List (ListenerId × EventRecord)) :
    deliveredTo l (a ++ b) = deliveredTo l a ++ deliveredTo l b := by
  simp [deliveredTo, List.filter_append]

/-- One fan-out delivers the event to a listener once per registration. -/
theorem deliveredTo_fanout (l : ListenerId) (xs : List ListenerId) (e : EventRecord) :
    deliveredTo l (xs.map (fun x => (x, e))) = List.replicate (xs.count l) e := by
  induction xs with
  | nil => rfl
  | cons x xs ih =>
    by_cases h : (x == l) = true
    · simp only [List.map_cons, deliveredTo, List.filter_cons, h, List.count_cons,
        if_true, List.map_cons] at *
      simp [ih, List.replicate_succ, deliveredTo, Nat.add_comm]
    · simp only [List.map_cons, deliveredTo, List.filter_cons, h, List.count_cons,
        if_false, Bool.false_eq_true] at *
      simpa [ih, deliveredTo] using ih

/-- No operation changes the Thing id. -/
theorem applyOp_id (t : Thing) (fs : FS) (op : ThingOp) :
    ((applyOp t fs op).1).id = t.id := by
  cases op with
  | setIcon d o upd =>
    obtain ⟨ih, hshape⟩ := setIcon_shape t fs d o upd
    simp [applyOp, hshape]
  | remove u => cases h : t.iconHref <;> simp [applyOp, Thing.remove, h]
  | _ =>
    simp [applyOp, Thing.setName, Thing.setCoordinates, Thing.setSelectedCapability,
      Thing.dispatchEvent, Thing.addEventSubscription, Thing.removeEventSubscription,
      Thing.registerWebsocket, Thing.addAction, Thing.removeAction]

/-- Operations that are not a registration or removal of listener `l` keep
the registration count of `l`. -/
theorem applyOp_count (t : Thing) (fs : FS) (op : ThingOp) (l : ListenerId)
    (h1 : op ≠ .addEventSubscription l) (h2 : op ≠ .removeEventSubscription l) :
    ((applyOp t fs op).1).listeners.count l = t.listeners.count l := by
  cases op with
  | setIcon d o upd =>
    obtain ⟨ih, hshape⟩ := setIcon_shape t fs d o upd
    simp [applyOp, hshape]
  | remove u => cases h : t.iconHref <;> simp [applyOp, Thing.remove, h]
  | addEventSubscription l2 =>
    have hne : l2 ≠ l := fun he => h1 (by rw [he])
    simp [applyOp, Thing.addEventSubscription, List.count_append,
      List.count_singleton, hne]
  | removeEventSubscription l2 =>
    have hne : l ≠ l2 := fun he => h2 (by rw [he])
    simp [applyOp, Thing.removeEventSubscription, removeLastOcc,
      List.count_reverse, List.count_erase_of_ne hne]
  | _ =>
    simp [applyOp, Thing.setName, Thing.setCoordinates, Thing.setSelectedCapability,
      Thing.dispatchEvent, Thing.registerWebsocket, Thing.addAction, Thing.removeAction]

/-- A listener with no registration stays unregistered under any operation
other than its own registration. -/
theorem applyOp_count_zero (t : Thing) (fs : FS) (op : ThingOp) (l : ListenerId)
    (h1 : op ≠ .addEventSubscription l) (hc : t.listeners.count l = 0) :
    ((applyOp t fs op).1).listeners.count l = 0 := by
  cases op with
  | setIcon d o upd =>
    obtain ⟨ih, hshape⟩ := setIcon_shape t fs d o upd
    simp [applyOp, hshape, hc]
  | remove u => cases h : t.iconHref <;> simp [applyOp, Thing.remove, h, hc]
  | addEventSubscription l2 =>
    have hne : l2 ≠ l := fun he => h1 (by rw [he])
    simp [applyOp, Thing.addEventSubscription, List.count_append,
      List.count_singleton, hne, hc]
  | removeEventSubscription l2 =>
    simp [applyOp, Thing.removeEventSubscription, removeLastOcc,
      List.count_reverse, List.count_erase, hc]
  | _ =>
    simp [applyOp, Thing.setName, Thing.setCoordinates, Thing.setSelectedCapability,
      Thing.dispatchEvent, Thing.registerWebsocket, Thing.addAction, Thing.removeAction, hc]

/-- Only `dispatchEvent` invokes listeners, and it invokes exactly the
currently-registered ones with the stamped event. -/
theorem applyOp_deliveries (t : Thing) (fs : FS) (op : ThingOp) :
    (applyOp t fs op).2.2 = (match op with
      | .dispatchEvent e => t.listeners.map (fun x => (x, stampEvent t.id e))
      | _ => []) := by
  cases op <;> rfl

/-- A listener registered exactly once and neither added nor removed during
the run receives exactly the stamped dispatched events, in dispatch
order. -/
theorem runOps_registered (ops : List ThingOp) :
    ∀ (t : Thing) (fs : FS) (l : ListenerId),
      t.listeners.count l = 1 →
      (∀ op ∈ ops, op ≠ ThingOp.addEventSubscription l ∧
          op ≠ ThingOp.removeEventSubscription l) →
      deliveredTo l (runOps t fs ops).2.2 = stampedDispatches t.id ops := by
  induction ops with
  | nil => intro t fs l _ _; rfl
  | cons op ops ih =>
    intro t fs l hc hno
    have hop := hno op (List.mem_cons_self _ _)
    have hrest : ∀ o2 ∈ ops, o2 ≠ ThingOp.addEventSubscription l ∧
        o2 ≠ ThingOp.removeEventSubscription l :=
      fun o2 h2 => hno o2 (List.mem_cons_of_mem _ h2)
    have hcount := applyOp_count t fs op l hop.1 hop.2
    have hid := applyOp_id t fs op
    have hihapp := ih (applyOp t fs op).1 (applyOp t fs op).2.1 l
      (by rw [hcount]; exact hc) hrest
    rw [hid] at hihapp
    show deliveredTo l ((applyOp t fs op).2.2 ++ (runOps _ _ ops).2.2) = _
    rw [deliveredTo_append, hihapp, applyOp_deliveries]
    cases op with
    | dispatchEvent e =>
      dsimp only
      rw [deliveredTo_fanout, hc]
      simp [stampedDispatches]
    | _ => simp [stampedDispatches, deliveredTo]

/-- An unregistered listener that is never added during the run is never
invoked. -/
theorem runOps_unregistered (ops : List ThingOp) :
    ∀ (t : Thing) (fs : FS) (l : ListenerId),
      t.listeners.count l = 0 →
      (∀ op ∈ ops, op ≠ ThingOp.addEventSubscription l) →
      deliveredTo l (runOps t fs ops).2.2 = [] := by
  induction ops with
  | nil => intro t fs l _ _; rfl
  | cons op ops ih =>
    intro t fs l hc hno
    have hop := hno op (List.mem_cons_self _ _)
    have hrest : ∀ o2 ∈ ops, o2 ≠ ThingOp.addEventSubscription l :=
      fun o2 h2 => hno o2 (List.mem_cons_of_mem _ h2)
    have hcount := applyOp_count_zero t fs op l hop hc
    have hihapp := ih (applyOp t fs op).1 (applyOp t fs op).2.1 l hcount hrest
    show deliveredTo l ((applyOp t fs op).2.2 ++ (runOps _ _ ops).2.2) = _
    rw [deliveredTo_append, hihapp, applyOp_deliveries]
    cases op with
    | dispatchEvent e =>
      dsimp only
      rw [deliveredTo_fanout, hc]
      rfl
    | _ => simp [deliveredTo]

/-- A non-empty string is not falsy. -/
theorem jsFalsyStr_some_ne (s : String) (hs : s ≠ "") : jsFalsyStr (some s) = false := by
  unfold jsFalsyStr
  split <;> simp_all

/-! Claim theorems. -/

/-- Claim C1, counterexample to the claim as stated: with an old icon set
and its file present, a `setIcon` call whose old-asset unlink succeeds but
whose new-asset write fails reports a failure after which the old icon is
neither intact (its file is gone and the ref cleared) nor is a new icon
installed (`iconRef` is unset) — so on this failure it is not the case that
"either the old icon is intact or the new one is fully installed". -/
theorem C1_counterexample :
    (Thing.setIcon c1Thing c1Fs ⟨some "aGVsbG8=", "image/png"⟩
        ⟨true, true, false, "new123"⟩ false).2.2 = some IconError.writeFailed
    ∧ (Thing.setIcon c1Thing c1Fs ⟨some "aGVsbG8=", "image/png"⟩
        ⟨true, true, false, "new123"⟩ false).1.iconHref = none
    ∧ c1Thing.iconHref = some "/uploads/old.png"
    ∧ resolveIconRef "/uploads/old.png" ∉
        (Thing.setIcon c1Thing c1Fs ⟨some "aGVsbG8=", "image/png"⟩
          ⟨true, true, false, "new123"⟩ false).2.1.files := by
  decide

/-- Claim C1 (amended): every `setIcon` call — any input, any combination of
unlink/alloc/write outcomes — preserves icon-state consistency: afterwards
`iconRef` either resolves to a file that exists or is unset, never a
dangling reference.  (The stronger disjunct of the original claim, "on
failure either the old icon is intact or the new one is fully installed",
fails: when the old asset was deleted and the new write fails, the call
leaves `iconRef` unset with the old icon gone.) -/
theorem C1_setIcon_never_dangling (t : Thing) (fs : FS) (d : IconData)
    (o : IconFsOracle) (upd : Bool) (h : iconConsistent t fs) :
    iconConsistent (t.setIcon fs d o upd).1 (t.setIcon fs d o upd).2.1 := by
  intro r hr
  revert hr
  unfold Thing.setIcon
  split
  · exact fun hr => h r hr
  · cases ht : t.iconHref <;> simp only [ht] <;>
      cases ha : o.allocOk <;> cases hw : o.writeOk <;>
      simp only [Bool.false_eq_true, if_false, if_true, ite_true, ite_false] <;>
      intro hr <;>
      first
        | exact Option.noConfusion (ht ▸ hr)
        | exact Option.noConfusion hr
        | (cases Option.some.inj hr
           rw [resolve_uploads]
           exact List.mem_cons_self _ _)

/-- Claim C1 witness: the amended consistency theorem applied to a concrete
consistent Thing and a write-failure oracle. -/
theorem C1_setIcon_never_dangling_witness :
    iconConsistent
      (Thing.setIcon c1Thing c1Fs ⟨some "aGVsbG8=", "image/png"⟩ oracle0 false).1
      (Thing.setIcon c1Thing c1Fs ⟨some "aGVsbG8=", "image/png"⟩ oracle0 false).2.1 := by
  apply C1_setIcon_never_dangling
  intro r hr
  have hr2 : some "/uploads/old.png" = some r := hr
  cases Option.some.inj hr2
  decide

/-- Claim C2: event delivery.  Part 1: a listener registered exactly once
for the whole run, and neither added nor removed during it, is invoked with
exactly the dispatched (stamped) events, once each, in dispatch order —
for every sequence of operations, dispatches included.  Part 2: a listener
that is unregistered and never added receives nothing (so a listener added
mid-stream receives no events dispatched before its registration, that
prefix of the run being such a run).  Part 3: after
`removeEventSubscription`, a listener that had at most one registration is
never invoked again (unless re-added). -/
theorem C2_event_delivery :
    (∀ (t : Thing) (fs : FS) (ops : List ThingOp) (l : ListenerId),
      t.listeners.count l = 1 →
      (∀ op ∈ ops, op ≠ ThingOp.addEventSubscription l ∧
          op ≠ ThingOp.removeEventSubscription l) →
      deliveredTo l (runOps t fs ops).2.2 = stampedDispatches t.id ops)
  ∧ (∀ (t : Thing) (fs : FS) (ops : List ThingOp) (l : ListenerId),
      t.listeners.count l = 0 →
      (∀ op ∈ ops, op ≠ ThingOp.addEventSubscription l) →
      deliveredTo l (runOps t fs ops).2.2 = [])
  ∧ (∀ (t : Thing) (fs : FS) (ops : List ThingOp) (l : ListenerId),
      t.listeners.count l ≤ 1 →
      (∀ op ∈ ops, op ≠ ThingOp.addEventSubscription l) →
      deliveredTo l
        (runOps t fs (ThingOp.removeEventSubscription l :: ops)).2.2 = []) := by
  refine ⟨fun t fs ops l hc hno => runOps_registered ops t fs l hc hno,
          fun t fs ops l hc hno => runOps_unregistered ops t fs l hc hno,
          ?_⟩
  intro t fs ops l hc hno
  show deliveredTo l ((applyOp t fs (ThingOp.removeEventSubscription l)).2.2 ++
      (runOps _ _ ops).2.2) = _
  rw [deliveredTo_append, applyOp_deliveries]
  have hzero : ((applyOp t fs (ThingOp.removeEventSubscription l)).1).listeners.count l = 0 := by
    simp only [applyOp, Thing.removeEventSubscription, removeLastOcc]
    rw [List.count_reverse, List.count_erase_self, List.count_reverse]
    omega
  rw [runOps_unregistered ops _ _ l hzero hno]
  simp [deliveredTo]

/-- Claim C2 witness: a concrete run — two dispatches around a mid-stream
registration of another listener and an unrelated setter — delivers to the
listener registered throughout exactly the two stamped events, in order. -/
theorem C2_event_delivery_witness :
    deliveredTo 5 (runOps c2Thing fs0 c2Ops).2.2
      = [⟨"ev1", "d1", some "t1", 1⟩, ⟨"ev2", "d2", some "other", 2⟩] :=
  C2_event_delivery.1 c2Thing fs0 c2Ops 5 (by decide) (by decide)

/-- Claim C3: creation with an empty id or an absent description fails with
`InvalidArgument` and yields no Thing; with both present it succeeds, and
absent optional fields take the documented defaults (`name`, `type`,
`description` the empty string, `@context` the default schema URI, `@type`
empty, `properties`/`actions`/`events` empty mappings). -/
theorem C3_create_validation :
    (∀ d fs o, Thing.create "" d fs o = .error .InvalidArgument)
  ∧ (∀ id fs o, Thing.create id none fs o = .error .InvalidArgument)
  ∧ (∀ (id : String) (d : ThingDescription) (fs : FS) (o : IconFsOracle), id ≠ "" →
      ∃ t fs2, Thing.create id (some d) fs o = .ok (t, fs2)
      ∧ (d.name = none → t.name = "")
      ∧ (d.type = none → t.type = "")
      ∧ (d.description = none → t.description = "")
      ∧ (d.atContext = none → t.atContext = "https://iot.mozilla.org/schemas")
      ∧ (d.atType = none → t.atType = [])
      ∧ (d.properties = none → t.properties = [])
      ∧ (d.actions = none → t.actions = [])
      ∧ (d.events = none → t.events = [])) := by
  refine ⟨?_, ?_, ?_⟩
  · intro d fs o
    cases d with
    | none => rfl
    | some desc => simp [Thing.create]
  · intro id fs o; rfl
  · intro id d fs o hid
    obtain ⟨t, fs2, ht⟩ := create_some_ok id d fs o hid
    obtain ⟨ih, rfl⟩ := create_ok_shape id d fs o t fs2 ht
    refine ⟨_, fs2, ht, ?_, ?_, ?_, ?_, ?_, ?_, ?_, ?_⟩ <;>
      intro hnone <;> simp [buildThing, jsOrStr, hnone]

/-- Claim C3 witness: a concrete successful creation with an all-absent
description takes all the defaults. -/
theorem C3_create_validation_witness :
    ∃ t fs2, Thing.create "x" (some emptyDesc) fs0 oracle0 = .ok (t, fs2)
      ∧ (emptyDesc.name = none → t.name = "")
      ∧ (emptyDesc.type = none → t.type = "")
      ∧ (emptyDesc.description = none → t.description = "")
      ∧ (emptyDesc.atContext = none → t.atContext = "https://iot.mozilla.org/schemas")
      ∧ (emptyDesc.atType = none → t.atType = [])
      ∧ (emptyDesc.properties = none → t.properties = [])
      ∧ (emptyDesc.actions = none → t.actions = [])
      ∧ (emptyDesc.events = none → t.events = []) :=
  C3_create_validation.2.2 "x" emptyDesc fs0 oracle0 (by decide)

/-- Claim C4: after every successful creation, every property, action and
event descriptor href equals `<thing href>/<collection>/<name>`. -/
theorem C4_descriptor_hrefs (id : String) (d : ThingDescription) (fs : FS)
    (o : IconFsOracle) (t : Thing) (fs2 : FS)
    (h : Thing.create id (some d) fs o = .ok (t, fs2)) :
    (∀ pr ∈ t.properties, pr.2.href = some (t.href ++ "/properties/" ++ pr.1))
  ∧ (∀ pr ∈ t.actions, pr.2.href = some (t.href ++ "/actions/" ++ pr.1))
  ∧ (∀ pr ∈ t.events, pr.2.href = some (t.href ++ "/events/" ++ pr.1)) := by
  obtain ⟨ih, rfl⟩ := create_ok_shape id d fs o t fs2 h
  refine ⟨?_, ?_, ?_⟩ <;> intro pr hpr <;>
    simp only [buildThing, List.mem_map] at hpr <;>
    obtain ⟨a, hmem, rfl⟩ := hpr <;>
    simp [buildThing, props_href_eq]

/-- Claim C4 witness: the href law at a concrete creation with one
property, one action and one event. -/
theorem C4_descriptor_hrefs_witness :
    (∀ pr ∈ (buildThing "x" richDesc).properties,
        pr.2.href = some ((buildThing "x" richDesc).href ++ "/properties/" ++ pr.1))
  ∧ (∀ pr ∈ (buildThing "x" richDesc).actions,
        pr.2.href = some ((buildThing "x" richDesc).href ++ "/actions/" ++ pr.1))
  ∧ (∀ pr ∈ (buildThing "x" richDesc).events,
        pr.2.href = some ((buildThing "x" richDesc).href ++ "/events/" ++ pr.1)) :=
  C4_descriptor_hrefs "x" richDesc fs0 oracle0 (buildThing "x" richDesc) fs0 rfl

/-- Claim C5, counterexample to the claim as stated: an event whose
`thingId` is present but the empty string is not left unchanged —
`dispatchEvent` overwrites it with the Thing id, because the source tests
JS truthiness (`!event.thingId`), not absence. -/
theorem C5_counterexample :
    (sampleThing.dispatchEvent ⟨"ev", "d", some "", 3⟩).1.eventsDispatched
        = [⟨"ev", "d", some "t1", 3⟩]
    ∧ (⟨"ev", "d", some "", 3⟩ : EventRecord).thingId = some ""
    ∧ (some "" : Option String) ≠ some "t1" := by
  refine ⟨rfl, rfl, by decide⟩

/-- Claim C5 (amended): `dispatchEvent` sets `event.thingId` to the Thing
id exactly when it is absent or the empty string (any other present value
is left unchanged), then appends the stamped event to the end of the event
log before fanning out; and the log is append-only — every operation of the
public surface leaves the existing log a prefix of the new one. -/
theorem C5_dispatch_stamps_and_appends :
    (∀ (t : Thing) (e : EventRecord),
      (t.dispatchEvent e).1.eventsDispatched
        = t.eventsDispatched ++ [stampEvent t.id e]
      ∧ ((e.thingId = none ∨ e.thingId = some "") →
          stampEvent t.id e = { e with thingId := some t.id })
      ∧ (∀ s, s ≠ "" → e.thingId = some s → stampEvent t.id e = e))
  ∧ (∀ (t : Thing) (fs : FS) (op : ThingOp),
      ∃ tail, ((applyOp t fs op).1).eventsDispatched
        = t.eventsDispatched ++ tail) := by
  constructor
  · intro t e
    refine ⟨rfl, ?_, ?_⟩
    · rintro (h | h) <;> simp [stampEvent, jsFalsyStr, h]
    · intro s hs h
      simp [stampEvent, h, jsFalsyStr_some_ne s hs]
  · intro t fs op
    cases op with
    | setIcon d o upd =>
      obtain ⟨ih, hshape⟩ := setIcon_shape t fs d o upd
      exact ⟨[], by simp [applyOp, hshape]⟩
    | remove u =>
      refine ⟨[], ?_⟩
      cases h : t.iconHref <;> simp [applyOp, Thing.remove, h]
    | dispatchEvent e => exact ⟨[stampEvent t.id e], rfl⟩
    | _ =>
      exact ⟨[], by simp [applyOp, Thing.setName, Thing.setCoordinates,
        Thing.setSelectedCapability, Thing.addEventSubscription,
        Thing.removeEventSubscription, Thing.registerWebsocket,
        Thing.addAction, Thing.removeAction]⟩

/-- Claim C5 witness: stamping at a concrete absent `thingId`. -/
theorem C5_dispatch_stamps_and_appends_witness :
    stampEvent "t1" ⟨"ev", "d", none, 3⟩ = (⟨"ev", "d", some "t1", 3⟩ : EventRecord) :=
  (C5_dispatch_stamps_and_appends.1 sampleThing ⟨"ev", "d", none, 3⟩).2.1 (Or.inl rfl)

/-- Claim C6: `addAction` and `removeAction` each return true exactly when
the action name is a key of the actions mapping, and neither mutates the
Thing at all. -/
theorem C6_action_membership (t : Thing) (a : ActionArg) :
    ((t.addAction a).1 = true ↔ a.name ∈ t.actions.map Prod.fst)
    ∧ (t.addAction a).2 = t
    ∧ ((t.removeAction a).1 = true ↔ a.name ∈ t.actions.map Prod.fst)
    ∧ (t.removeAction a).2 = t := by
  refine ⟨?_, rfl, ?_, rfl⟩ <;>
    simp only [Thing.addAction, Thing.removeAction, List.any_eq_true, List.mem_map,
      beq_iff_eq]

/-- Claim C6 witness: the membership law at a concrete Thing and action. -/
theorem C6_action_membership_witness :
    ((sampleThing.addAction ⟨"reboot"⟩).1 = true
        ↔ "reboot" ∈ sampleThing.actions.map Prod.fst)
    ∧ (sampleThing.addAction ⟨"reboot"⟩).2 = sampleThing
    ∧ ((sampleThing.removeAction ⟨"reboot"⟩).1 = true
        ↔ "reboot" ∈ sampleThing.actions.map Prod.fst)
    ∧ (sampleThing.removeAction ⟨"reboot"⟩).2 = sampleThing :=
  C6_action_membership sampleThing ⟨"reboot"⟩

/-- Claim C7: for every created Thing, `getDescription` with a request host
returns the Thing links plus exactly one extra `alternate` link with href
`wss://<host><thing href>` when secure and `ws://<host><thing href>`
otherwise, appended after the UI `alternate` link (which is the last of the
Thing links); with no request host the returned link list is exactly the
Thing links, with no websocket link.  The embedding's `getDescription` is a
pure projection, so it cannot mutate the Thing. -/
theorem C7_description_links (id : String) (d : ThingDescription) (fs : FS)
    (o : IconFsOracle) (t : Thing) (fs2 : FS) (host : String) (secure : Bool)
    (h : Thing.create id (some d) fs o = .ok (t, fs2)) :
    (t.getDescription (some (host, secure))).links
      = t.links ++
        [{ rel := "alternate", mediaType := none,
           href := (if secure then "wss" else "ws") ++ "://" ++ host ++ t.href }]
  ∧ (t.getDescription none).links = t.links
  ∧ ∃ ui, t.links.getLast? = some ui ∧ ui.rel = "alternate"
      ∧ ui.mediaType = some "text/html" := by
  obtain ⟨ih, rfl⟩ := create_ok_shape id d fs o t fs2 h
  refine ⟨rfl, rfl, ?_⟩
  exact ⟨_, rfl, rfl, rfl⟩

/-- Claim C7 witness: the link law at a concrete creation and request
context. -/
theorem C7_description_links_witness :
    ((buildThing "x" emptyDesc).getDescription (some ("example.org", true))).links
      = (buildThing "x" emptyDesc).links ++
        [{ rel := "alternate", mediaType := none,
           href := (if true then "wss" else "ws") ++ "://" ++ "example.org" ++
             (buildThing "x" emptyDesc).href }]
  ∧ ((buildThing "x" emptyDesc).getDescription none).links
      = (buildThing "x" emptyDesc).links
  ∧ ∃ ui, (buildThing "x" emptyDesc).links.getLast? = some ui
      ∧ ui.rel = "alternate" ∧ ui.mediaType = some "text/html" :=
  C7_description_links "x" emptyDesc fs0 oracle0 (buildThing "x" emptyDesc) fs0
    "example.org" true rfl

/-- Claim C8: a `setIcon` call whose mime is outside the allowed set or
whose data is absent is rejected with an error report and changes nothing:
the Thing (its prior `iconRef` included) and the filesystem are returned
exactly as they were. -/
theorem C8_setIcon_rejects_invalid (t : Thing) (fs : FS) (d : IconData)
    (o : IconFsOracle) (upd : Bool)
    (h : ¬ d.mime ∈ allowedIconMimes ∨ d.data = none) :
    t.setIcon fs d o upd = (t, fs, some .invalidData) := by
  unfold Thing.setIcon
  have hcond : (jsFalsyStr d.data || !(allowedIconMimes.contains d.mime)) = true := by
    rcases h with h | h
    · have hc2 : allowedIconMimes.contains d.mime = false := by simpa using h
      simp [hc2]
      exact Or.inr h
    · simp [h, jsFalsyStr]
  rw [if_pos hcond]

/-- Claim C8 witness: a concrete `text/plain` rejection. -/
theorem C8_setIcon_rejects_invalid_witness :
    sampleThing.setIcon fs0 ⟨some "aGVsbG8=", "text/plain"⟩ oracle0 false
      = (sampleThing, fs0, some .invalidData) :=
  C8_setIcon_rejects_invalid sampleThing fs0 ⟨some "aGVsbG8=", "text/plain"⟩
    oracle0 false (Or.inl (by decide))

/-- Claim C9: `remove` issues a close request to exactly the registered
sessions whose state is open or connecting (sessions in other states are
returned untouched), always clears `iconRef`, touches the filesystem only
when an icon was set (so it is safe with no icon), and when the unlink
succeeds the icon file is gone afterwards. -/
theorem C9_remove_sessions_and_icon (t : Thing) (fs : FS) (unlinkOk : Bool)
    (hnodup : (t.websockets.map WsConn.id).Nodup) :
    (∀ w ∈ t.websockets,
        (w.id ∈ (t.remove fs unlinkOk).closeRequests
          ↔ (w.readyState = .OPEN ∨ w.readyState = .CONNECTING)))
  ∧ (∀ w ∈ t.websockets,
        ¬(w.readyState = .OPEN ∨ w.readyState = .CONNECTING) →
          w ∈ (t.remove fs unlinkOk).thing.websockets)
  ∧ (t.remove fs unlinkOk).thing.iconHref = none
  ∧ (t.iconHref = none → (t.remove fs unlinkOk).fs = fs)
  ∧ (∀ p, t.iconHref = some p → unlinkOk = true →
        resolveIconRef p ∉ ((t.remove fs unlinkOk).fs).files) := by
  refine ⟨?_, ?_, remove_icon t fs unlinkOk, ?_, ?_⟩
  · intro w hw
    rw [remove_creq]
    constructor
    · intro hmem
      simp only [List.mem_map, List.mem_filter] at hmem
      obtain ⟨w2, ⟨hmem2, hsc⟩, hid⟩ := hmem
      have : w2 = w := List.inj_on_of_nodup_map hnodup hmem2 hw hid
      subst this
      simpa [wsShouldClose, beq_iff_eq] using hsc
    · intro hstate
      simp only [List.mem_map, List.mem_filter]
      exact ⟨w, ⟨hw, by simpa [wsShouldClose, beq_iff_eq] using hstate⟩, rfl⟩
  · intro w hw hnot
    rw [remove_ws]
    have : wsShouldClose w = false := by
      simpa [wsShouldClose, beq_iff_eq] using hnot
    refine List.mem_map.2 ⟨w, hw, ?_⟩
    simp [this]
  · intro hnone; simp [Thing.remove, hnone]
  · intro p hp hu
    simp only [Thing.remove, hp, hu, if_true]
    intro hmem
    simp only [FS.remove, List.mem_filter, decide_eq_true_eq] at hmem
    exact hmem.2 rfl

/-- Claim C9 witness: the removal law on a Thing with one open and one
closed session and an icon whose file exists. -/
theorem C9_remove_sessions_and_icon_witness :
    (∀ w ∈ c9Thing.websockets,
        (w.id ∈ (c9Thing.remove c9Fs true).closeRequests
          ↔ (w.readyState = .OPEN ∨ w.readyState = .CONNECTING)))
  ∧ (∀ w ∈ c9Thing.websockets,
        ¬(w.readyState = .OPEN ∨ w.readyState = .CONNECTING) →
          w ∈ (c9Thing.remove c9Fs true).thing.websockets)
  ∧ (c9Thing.remove c9Fs true).thing.iconHref = none
  ∧ (c9Thing.iconHref = none → (c9Thing.remove c9Fs true).fs = c9Fs)
  ∧ (∀ p, c9Thing.iconHref = some p → true = true →
        resolveIconRef p ∉ ((c9Thing.remove c9Fs true).fs).files) :=
  C9_remove_sessions_and_icon c9Thing c9Fs true (by decide)

/-- Claim C10: the object `getDescription` returns is not a full deep
snapshot — its `properties`, `actions` and `events` are the very references
the Thing holds (so writing through the returned description is visible
through the Thing), while `links` is a fresh copy with equal contents
(writing through it is not visible through the Thing). -/
theorem C10_description_aliasing (t : ThingRefs) (h : Heap) (hwf : t.wf h) :
    (getDescriptionRefs t h).1.propertiesA = t.propertiesA
  ∧ (getDescriptionRefs t h).1.actionsA = t.actionsA
  ∧ (getDescriptionRefs t h).1.eventsA = t.eventsA
  ∧ (getDescriptionRefs t h).1.linksA ≠ t.linksA
  ∧ (getDescriptionRefs t h).2.read (getDescriptionRefs t h).1.linksA
      = some ((h.read t.linksA).getD (.linkList []))
  ∧ (∀ v, ((getDescriptionRefs t h).2.write
        (getDescriptionRefs t h).1.propertiesA v).read t.propertiesA = some v)
  ∧ (∀ v, ((getDescriptionRefs t h).2.write
        (getDescriptionRefs t h).1.linksA v).read t.linksA = h.read t.linksA) := by
  obtain ⟨hp, ha, he, hl⟩ := hwf
  refine ⟨rfl, rfl, rfl, ?_, ?_, ?_, ?_⟩
  · intro hx
    have hx2 : h.next = t.linksA := hx
    omega
  · simp [getDescriptionRefs, Heap.alloc, Heap.read]
  · intro v
    simp [getDescriptionRefs, Heap.alloc, Heap.read, Heap.write]
  · intro v
    have hne1 : (h.next == t.linksA) = false := by
      simp; omega
    simp [getDescriptionRefs, Heap.alloc, Heap.read, Heap.write, List.find?, hne1]

/-- Claim C10 witness: the aliasing law at a concrete heap. -/
theorem C10_description_aliasing_witness :
    (getDescriptionRefs c10Refs c10Heap).1.propertiesA = c10Refs.propertiesA
  ∧ (getDescriptionRefs c10Refs c10Heap).1.actionsA = c10Refs.actionsA
  ∧ (getDescriptionRefs c10Refs c10Heap).1.eventsA = c10Refs.eventsA
  ∧ (getDescriptionRefs c10Refs c10Heap).1.linksA ≠ c10Refs.linksA
  ∧ (getDescriptionRefs c10Refs c10Heap).2.read
        (getDescriptionRefs c10Refs c10Heap).1.linksA
      = some ((c10Heap.read c10Refs.linksA).getD (.linkList []))
  ∧ (∀ v, ((getDescriptionRefs c10Refs c10Heap).2.write
        (getDescriptionRefs c10Refs c10Heap).1.propertiesA v).read
          c10Refs.propertiesA = some v)
  ∧ (∀ v, ((getDescriptionRefs c10Refs c10Heap).2.write
        (getDescriptionRefs c10Refs c10Heap).1.linksA v).read c10Refs.linksA
      = c10Heap.read c10Refs.linksA) :=
  C10_description_aliasing c10Refs c10Heap ⟨by decide, by decide, by decide, by decide⟩
